import Mathlib

/-!
Shallow embedding of the real-time chat backend (Django Channels consumers,
models and DRF views under `src/backend/chat/`), together with theorems
checking the natural-language specification against it.

Conventions of the embedding:
* database rows are Lean structures, the database is an explicit `DB` state;
* wall-clock time is a `Nat` counter (`DB.now`), `auto_now_add` fields read it;
* Django querysets become list operations; `ORDER BY` becomes a sort;
* the authenticated scope user is `Option CustomUser` (`none` = no user at
  all, `is_anonymous = true` = Django `AnonymousUser`);
* channel-layer side effects (`group_add`, `group_send`, `close`, `accept`)
  are recorded in explicit result structures instead of performing I/O.
-/

/-- A user row (`userauth.models.CustomUser`, referenced by
`chat/consumer.py` and `chat/models.py`). Only the fields the chat core
touches are modelled: `id`, `username`, the Django `is_anonymous` flag of the
scope user, and the presence fields `is_online` / `last_seen`. -/
structure CustomUser where
  id : Nat
  username : String
  is_anonymous : Bool
  is_online : Bool
  last_seen : Nat
deriving DecidableEq, Repr

/-- A chat room row (`chat/models.py`, class `ChatRoom`): a name and the
many-to-many member set `users`, modelled as the list of member user ids. -/
structure ChatRoom where
  id : Nat
  names : String
  users : List Nat
deriving DecidableEq, Repr

/-- A message row (`chat/models.py`, class `Message`): owning room id, author
user id, text content, `auto_now_add` timestamp, and the `is_read` flag
(default `false`). -/
structure Message where
  id : Nat
  chatroom : Nat
  user : Nat
  content : String
  timestamp : Nat
  is_read : Bool
deriving DecidableEq, Repr

/-- The database state: room rows, message rows, fresh primary keys, and the
current wall-clock reading used for `auto_now_add` / `auto_now` fields. -/
structure DB where
  rooms : List ChatRoom
  messages : List Message
  nextRoomId : Nat
  nextMsgId : Nat
  now : Nat
deriving DecidableEq, Repr

/-- Outcome of `ChatConsumer.connect`: the handler either raises `KeyError`
while reading `kwargs['room_name']`, closes the transport, or accepts it. -/
inductive ConnectResult where
  | keyError
  | closed
  | accepted
deriving DecidableEq, Repr

/-- Observable effect of one `ChatConsumer.connect` call: the result, the
channel-layer group passed to `group_add` (if `group_add` ran at all), and
the database state afterwards. -/
structure ConnectOut where
  result : ConnectResult
  subscribed : Option String
  db : DB
deriving DecidableEq, Repr

/-- `ChatConsumer.get_or_create_room` (`chat/consumer.py`):
`ChatRoom.objects.get_or_create(names=room_name, ...)`; on creation, the
connecting user is added to the member set when present and not anonymous. -/
def get_or_create_room (room_name : String) (user : Option CustomUser)
    (db : DB) : ChatRoom × DB :=
  match db.rooms.find? (fun r => r.names == room_name) with
  | some r => (r, db)
  | none =>
      let members : List Nat :=
        match user with
        | some u => if u.is_anonymous then [] else [u.id]
        | none => []
      let room : ChatRoom :=
        { id := db.nextRoomId, names := room_name, users := members }
      (room, { db with rooms := db.rooms ++ [room],
                       nextRoomId := db.nextRoomId + 1 })

/-- `ChatConsumer.has_room_access` (`chat/consumer.py`):
`self.chat_room.users.filter(id=self.user.id).exists()`. -/
def has_room_access (room : ChatRoom) (u : CustomUser) : Bool :=
  room.users.contains u.id

/-- `ChatConsumer.connect` (`chat/consumer.py`): reads
`kwargs['room_name']` (raising `KeyError` when the key is absent), closes on
missing/anonymous user, resolves the room via `get_or_create_room`, closes
when access is denied, otherwise joins the group `chat_<room_name>` and
accepts. `kwargs` is the url-route keyword binding from the router. -/
def connect (kwargs : List (String × String)) (user : Option CustomUser)
    (db : DB) : ConnectOut :=
  match kwargs.lookup "room_name" with
  | none => { result := .keyError, subscribed := none, db := db }
  | some room_name =>
      match user with
      | none => { result := .closed, subscribed := none, db := db }
      | some u =>
          if u.is_anonymous then
            { result := .closed, subscribed := none, db := db }
          else
            let rdb := get_or_create_room room_name (some u) db
            if has_room_access rdb.1 u then
              { result := .accepted, subscribed := some ("chat_" ++ room_name),
                db := rdb.2 }
            else
              { result := .closed, subscribed := none, db := rdb.2 }

/-- The websocket url pattern `ws/chat/(?P<room_id>\d+)/$` from
`chat/routing.py`: a path matches when it is `ws/chat/` followed by a
non-empty digit string and a final `/`; the single named capture group binds
the kwarg `room_id`. -/
def chatRouteMatch (path : List Char) : Option (List (String × String)) :=
  if ("ws/chat/".data.isPrefixOf path) && path.getLast? == some '/' then
    let mid := (path.drop 8).dropLast
    if mid.length > 0 && mid.all Char.isDigit then
      some [("room_id", String.mk mid)]
    else none
  else none

/-- The access-control contract of `connect`, given that the room-name kwarg
resolved to `room_name`: the connection is accepted iff a user is supplied,
is not anonymous, and is a member of the room resolved (or created) for
`room_name`; whenever it is not accepted it is closed with no `group_add`;
and when accepted the subscription is to the room group `chat_<room_name>`. -/
def ConnectSpec (kwargs : List (String × String)) (user : Option CustomUser)
    (db : DB) (room_name : String) : Prop :=
  ((connect kwargs user db).result = .accepted ↔
    ∃ u, user = some u ∧ u.is_anonymous = false ∧
      has_room_access (get_or_create_room room_name (some u) db).1 u = true) ∧
  ((connect kwargs user db).result ≠ .accepted →
    (connect kwargs user db).result = .closed ∧
    (connect kwargs user db).subscribed = none) ∧
  ((connect kwargs user db).result = .accepted →
    (connect kwargs user db).subscribed = some ("chat_" ++ room_name))

/-- C1: for every connect sequence whose url-route kwargs bind `room_name`,
the session subscribes to the room group and is accepted only if the
supplied identity is present, non-anonymous and a member of the resolved
room; in every other case the transport is closed and no subscription is
created. -/
theorem connect_joined_iff_member
    (kwargs : List (String × String)) (user : Option CustomUser) (db : DB)
    (room_name : String)
    (h : kwargs.lookup "room_name" = some room_name) :
    ConnectSpec kwargs user db room_name := by
  unfold ConnectSpec connect
  rw [h]
  match user with
  | none => simp
  | some u =>
      by_cases ha : u.is_anonymous
      · simp [ha]
      · by_cases hm : has_room_access (get_or_create_room room_name (some u) db).1 u
        · simp [ha, hm]
        · simp [ha, hm]

/-- Witness for C1 at a concrete input: one user, one pre-existing room of
which the user is a member. -/
theorem connect_joined_iff_member_witness :
    ConnectSpec [("room_name", "general")]
      (some { id := 1, username := "alice", is_anonymous := false,
              is_online := false, last_seen := 0 })
      { rooms := [{ id := 1, names := "general", users := [1] }],
        messages := [], nextRoomId := 2, nextMsgId := 1, now := 0 }
      "general" :=
  connect_joined_iff_member _ _ _ _ rfl

/-- C2: every websocket path matched by the declared chat route binds only
the kwarg `room_id`, while `connect` reads `kwargs['room_name']`; hence
`connect` raises `KeyError` before any authentication check, room resolution
or subscription, the database is untouched, and no route-established room
connection can reach the accepted state. -/
theorem route_kwarg_mismatch_keyError
    (path : List Char) (kwargs : List (String × String))
    (user : Option CustomUser) (db : DB)
    (h : chatRouteMatch path = some kwargs) :
    connect kwargs user db =
      { result := .keyError, subscribed := none, db := db } ∧
    (connect kwargs user db).result ≠ .accepted := by
  unfold chatRouteMatch at h
  by_cases h1 : ("ws/chat/".data.isPrefixOf path) && path.getLast? == some '/'
  · rw [if_pos h1] at h
    by_cases h2 : ((path.drop 8).dropLast).length > 0 &&
        ((path.drop 8).dropLast).all Char.isDigit
    · rw [if_pos h2] at h
      have hk : kwargs = [("room_id", String.mk ((path.drop 8).dropLast))] :=
        (Option.some_injective _ h).symm
      subst hk
      constructor
      · unfold connect
        rfl
      · unfold connect
        intro hc
        simp [List.lookup] at hc
    · rw [if_neg h2] at h
      exact absurd h (by simp)
  · rw [if_neg h1] at h
    exact absurd h (by simp)

/-- Witness for C2 at the concrete path `ws/chat/5/`. -/
theorem route_kwarg_mismatch_keyError_witness :
    connect [("room_id", "5")] none
      { rooms := [], messages := [], nextRoomId := 1, nextMsgId := 1,
        now := 0 } =
      { result := .keyError, subscribed := none,
        db := { rooms := [], messages := [], nextRoomId := 1, nextMsgId := 1,
                now := 0 } } ∧
    (connect [("room_id", "5")] none
      { rooms := [], messages := [], nextRoomId := 1, nextMsgId := 1,
        now := 0 }).result ≠ .accepted :=
  route_kwarg_mismatch_keyError "ws/chat/5/".data _ none _ (by decide)

/-- The outcome of `json.loads` plus the `data['message']` access in
`ChatConsumer.receive`: the raw frame either fails to parse
(`JSONDecodeError`), parses but has no `message` key (`KeyError`), or yields
the string bound to `message`. -/
inductive Payload where
  | notJson
  | jsonWithoutMessage
  | jsonMessage (content : String)
deriving DecidableEq, Repr

/-- One `channel_layer.group_send` call: the target group name and the
event dictionary (string keys to string values; the `user_id` integer is
carried as its decimal string). -/
structure RoomEvent where
  group : String
  data : List (String × String)
deriving DecidableEq, Repr

/-- `ChatConsumer.save_message` (`chat/consumer.py`):
`Message.objects.create(chatroom=..., user=..., content=...)`. No
validation runs on `objects.create`; the row is stored with the content
as given, `auto_now_add` timestamp, and `is_read = false`. -/
def save_message (u : CustomUser) (chatroomId : Nat) (message_content : String)
    (db : DB) : Message × DB :=
  let m : Message :=
    { id := db.nextMsgId, chatroom := chatroomId, user := u.id,
      content := message_content, timestamp := db.now, is_read := false }
  (m, { db with messages := db.messages ++ [m],
                nextMsgId := db.nextMsgId + 1, now := db.now + 1 })

/-- Observable effect of one `ChatConsumer.receive` call: the events passed
to `group_send`, the database afterwards, whether the transport was closed,
and what the except-blocks printed. -/
structure ReceiveOut where
  events : List RoomEvent
  db : DB
  closed : Bool
  logs : List String
deriving DecidableEq, Repr

/-- `ChatConsumer.receive` (`chat/consumer.py`): parse failures and a
missing `message` key are caught, printed and dropped without closing;
otherwise the content is saved via `save_message` and, the saved row being
truthy, one `chat_message` event with keys `type`, `message`, `username`,
`user_id` is sent to the session's room group. -/
def receive (p : Payload) (u : CustomUser) (room_group_name : String)
    (chatroomId : Nat) (db : DB) : ReceiveOut :=
  match p with
  | .notJson =>
      { events := [], db := db, closed := false,
        logs := ["Invalid JSON received"] }
  | .jsonWithoutMessage =>
      { events := [], db := db, closed := false,
        logs := ["Message key not found in data"] }
  | .jsonMessage content =>
      let mdb := save_message u chatroomId content db
      { events := [{ group := room_group_name,
                     data := [("type", "chat_message"), ("message", content),
                              ("username", u.username),
                              ("user_id", toString u.id)] }],
        db := mdb.2, closed := false, logs := [] }

/-- A fixed example user for the concrete counterexamples. -/
def exUser : CustomUser :=
  { id := 1, username := "alice", is_anonymous := false, is_online := false,
    last_seen := 0 }

/-- A fixed example database with one room (id 1, members 1 and 2) and no
messages, used for the concrete counterexamples. -/
def exDB : DB :=
  { rooms := [{ id := 1, names := "general", users := [1, 2] }],
    messages := [], nextRoomId := 2, nextMsgId := 1, now := 10 }

/-- The claim side condition "content is blank after trimming": every
character of the string is whitespace. (The source has no trim anywhere on
the websocket path; this predicate only states the claim's hypothesis.) -/
def isBlank (s : String) : Bool :=
  s.data.all Char.isWhitespace

/-- Counterexample to C4: the content `" "` is blank after trimming, yet
`receive`/`save_message` does not reject it — a message row with content
`" "` is created (there is no `EmptyContent` validation on this path). -/
theorem blank_content_persisted_cex :
    isBlank " " = true ∧
    ((receive (.jsonMessage " ") exUser "chat_general" 1 exDB).db.messages.map
      Message.content) = [" "] := by
  constructor
  · decide
  · rfl

/-- C4 as amended: a payload whose content is blank after trimming is not
rejected — `save_message` stores a row with exactly that content and the
`auto_now_add` timestamp, a `chat_message` event is still published, and the
session stays open. -/
theorem blank_content_not_rejected
    (content : String) (u : CustomUser) (g : String) (rid : Nat) (db : DB)
    (h : isBlank content = true) :
    (receive (.jsonMessage content) u g rid db).db.messages =
      db.messages ++
        [{ id := db.nextMsgId, chatroom := rid, user := u.id,
           content := content, timestamp := db.now, is_read := false }] ∧
    (receive (.jsonMessage content) u g rid db).events.length = 1 ∧
    (receive (.jsonMessage content) u g rid db).closed = false := by
  refine ⟨rfl, rfl, rfl⟩

/-- Witness for C4 as amended at the blank content `" "`. -/
theorem blank_content_not_rejected_witness :
    (receive (.jsonMessage " ") exUser "chat_general" 1 exDB).db.messages =
      exDB.messages ++
        [{ id := exDB.nextMsgId, chatroom := 1, user := exUser.id,
           content := " ", timestamp := exDB.now, is_read := false }] ∧
    (receive (.jsonMessage " ") exUser "chat_general" 1 exDB).events.length
      = 1 ∧
    (receive (.jsonMessage " ") exUser "chat_general" 1 exDB).closed
      = false :=
  blank_content_not_rejected " " exUser "chat_general" 1 exDB (by decide)

/-- Counterexample to C5: the payload `{"message": ""}` lacks a non-empty
text field, yet `receive` persists a message row and publishes an event for
it (only a missing key or a parse failure is treated as malformed). -/
theorem empty_message_published_cex :
    (receive (.jsonMessage "") exUser "chat_general" 1 exDB).events ≠ [] ∧
    (receive (.jsonMessage "") exUser "chat_general" 1
      exDB).db.messages.length = exDB.messages.length + 1 := by
  constructor
  · intro h
    simp [receive] at h
  · rfl

/-- C5 as amended: for a joined session, a frame that fails JSON parsing or
lacks the `message` key is logged and dropped — no row is persisted, nothing
is published, the transport is not closed — and a subsequent well-formed
frame on the same state is persisted and published; a present-but-empty
`message` value is NOT treated as malformed (it is persisted and
published). -/
theorem malformed_payload_dropped
    (p : Payload) (u : CustomUser) (g : String) (rid : Nat) (db : DB)
    (h : p = .notJson ∨ p = .jsonWithoutMessage) :
    (receive p u g rid db).events = [] ∧
    (receive p u g rid db).db = db ∧
    (receive p u g rid db).closed = false ∧
    (receive p u g rid db).logs ≠ [] ∧
    (receive (.jsonMessage "hi") u g rid
        (receive p u g rid db).db).db.messages.length
      = db.messages.length + 1 ∧
    (receive (.jsonMessage "hi") u g rid
        (receive p u g rid db).db).events.length = 1 := by
  rcases h with h | h <;> subst h <;>
    exact ⟨rfl, rfl, rfl, by simp [receive], by simp [receive, save_message],
           rfl⟩

/-- Witness for C5 as amended at the unparsable frame `"not json"`. -/
theorem malformed_payload_dropped_witness :
    (receive .notJson exUser "chat_general" 1 exDB).events = [] ∧
    (receive .notJson exUser "chat_general" 1 exDB).db = exDB ∧
    (receive .notJson exUser "chat_general" 1 exDB).closed = false ∧
    (receive .notJson exUser "chat_general" 1 exDB).logs ≠ [] ∧
    (receive (.jsonMessage "hi") exUser "chat_general" 1
        (receive .notJson exUser "chat_general" 1 exDB).db).db.messages.length
      = exDB.messages.length + 1 ∧
    (receive (.jsonMessage "hi") exUser "chat_general" 1
        (receive .notJson exUser "chat_general" 1 exDB).db).events.length
      = 1 :=
  malformed_payload_dropped .notJson exUser "chat_general" 1 exDB (Or.inl rfl)

/-- Counterexample to C6: for the concrete message `"hi"` the single
published event's dictionary holds exactly the keys `type`, `message`,
`username`, `user_id` — it carries neither the room id nor the assigned
timestamp, contradicting the claimed event contents. -/
theorem room_event_payload_cex :
    ((receive (.jsonMessage "hi") exUser "chat_general" 1 exDB).events.map
      RoomEvent.data) =
      [[("type", "chat_message"), ("message", "hi"), ("username", "alice"),
        ("user_id", "1")]] ∧
    (((receive (.jsonMessage "hi") exUser "chat_general" 1
        exDB).events.map RoomEvent.data).all
      (fun d => d.lookup "timestamp" == none && d.lookup "room_id" == none))
      = true := by
  exact ⟨rfl, rfl⟩

/-- C6 as amended: every successful persistence publishes exactly one event,
addressed to the session's room group, whose dictionary carries the message
content, the author's username and the author's user id (plus the handler
tag `type = chat_message`); the room is identified only by the target group,
and neither a room id nor the assigned timestamp appears in the payload. -/
theorem room_event_payload
    (m : String) (u : CustomUser) (g : String) (rid : Nat) (db : DB) :
    (receive (.jsonMessage m) u g rid db).events =
      [{ group := g,
         data := [("type", "chat_message"), ("message", m),
                  ("username", u.username), ("user_id", toString u.id)] }] ∧
    (((receive (.jsonMessage m) u g rid db).events.map RoomEvent.data).all
      (fun d => d.lookup "timestamp" == none && d.lookup "room_id" == none))
      = true ∧
    (receive (.jsonMessage m) u g rid db).db.messages.length
      = db.messages.length + 1 := by
  refine ⟨rfl, ?_, by simp [receive, save_message]⟩
  simp [receive, List.lookup]

/-- A presence event value as serialized by `UserStatusConsumer`: the
connect broadcast carries the string `"online"`, the disconnect broadcast
carries the JSON boolean `false`. -/
inductive StatusVal where
  | str (s : String)
  | jsonBool (b : Bool)
deriving DecidableEq, Repr

/-- One `user_status` event on the global `user_status` group. -/
structure StatusEvent where
  user_id : Nat
  status : StatusVal
deriving DecidableEq, Repr

/-- Observable effect of one `UserStatusConsumer.connect` or `.disconnect`
call: the user object afterwards, the broadcast events, whether the session
joined/was accepted, and the `update_fields` list of each `save` call. -/
structure StatusOut where
  user : Option CustomUser
  events : List StatusEvent
  joined : Bool
  accepted : Bool
  savedFields : List (List String)
deriving DecidableEq, Repr

/-- `UserStatusConsumer.update_user_status` (`chat/consumer.py`):
`self.user.is_online = status; self.user.save(update_fields=['is_online',
'last_seen'])`.

Modelled from the spec: `userauth/models.py` (the `CustomUser` model) is not
under `src/`, so whether `last_seen` is an auto-managed timestamp (refreshed
to now by every `save` that lists it in `update_fields`) or a plain field
(in which case this `save` persists it unchanged, since the handler never
assigns it) cannot be read off the source; the spec only says last-seen is
mutated by the presence tracker. Both readings are carried by the `autoNow`
parameter, and the theorems below quantify over it or settle both values. -/
def update_user_status (autoNow : Bool) (now : Nat) (status : Bool)
    (u : CustomUser) : CustomUser × List String :=
  let u1 : CustomUser :=
    { u with is_online := status,
             last_seen := if autoNow then now else u.last_seen }
  (u1, ["is_online", "last_seen"])

/-- `UserStatusConsumer.connect` (`chat/consumer.py`): close on a missing or
anonymous user; otherwise join the `user_status` group, mark the user online
via `update_user_status(True)`, broadcast `{type: user_status, user_id,
status: 'online'}`, and accept. -/
def statusConnect (autoNow : Bool) (now : Nat) (user : Option CustomUser) :
    StatusOut :=
  match user with
  | none =>
      { user := none, events := [], joined := false, accepted := false,
        savedFields := [] }
  | some u =>
      if u.is_anonymous then
        { user := some u, events := [], joined := false, accepted := false,
          savedFields := [] }
      else
        let us := update_user_status autoNow now true u
        { user := some us.1,
          events := [{ user_id := u.id, status := .str "online" }],
          joined := true, accepted := true, savedFields := [us.2] }

/-- `UserStatusConsumer.disconnect` (`chat/consumer.py`): when a
non-anonymous user is bound, mark it offline via `update_user_status(False)`
and broadcast `{type: user_status, user_id, status: False}`; then leave the
`user_status` group. -/
def statusDisconnect (autoNow : Bool) (now : Nat) (user : Option CustomUser) :
    StatusOut :=
  match user with
  | none =>
      { user := none, events := [], joined := false, accepted := false,
        savedFields := [] }
  | some u =>
      if u.is_anonymous then
        { user := some u, events := [], joined := false, accepted := false,
          savedFields := [] }
      else
        let us := update_user_status autoNow now false u
        { user := some us.1,
          events := [{ user_id := u.id, status := .jsonBool false }],
          joined := false, accepted := false, savedFields := [us.2] }

/-- The connect-then-disconnect presence scenario: connect at time `t1`,
disconnect at time `t2`, returning both step results. -/
def presenceScenario (autoNow : Bool) (u : CustomUser) (t1 t2 : Nat) :
    StatusOut × StatusOut :=
  let c := statusConnect autoNow t1 (some u)
  (c, statusDisconnect autoNow t2 c.user)

/-- C7's last-seen clause as stated: across a connect (at `t1`) then
disconnect (at `t2`), `last_seen` is unchanged by the online transition and
is set to now exactly on the offline transition. -/
def LastSeenOnlyOnOffline (autoNow : Bool) (u : CustomUser) (t1 t2 : Nat) :
    Prop :=
  ((presenceScenario autoNow u t1 t2).1.user.map CustomUser.last_seen
      = some u.last_seen) ∧
  ((presenceScenario autoNow u t1 t2).2.user.map CustomUser.last_seen
      = some t2)

/-- Counterexample to C7: for a concrete non-anonymous user with
`last_seen = 0`, connecting at time 5 and disconnecting at time 9, the
claimed "last_seen updated only on the offline transition" fails under both
readings of the absent `CustomUser` model — with an auto-managed field the
connect save already rewrites `last_seen` (to 5), and with a plain field the
disconnect save never sets it (it stays 0, not 9); the handler passes
`update_fields=['is_online','last_seen']` identically on both transitions. -/
theorem last_seen_only_on_offline_cex :
    ¬ LastSeenOnlyOnOffline true exUser 5 9 ∧
    ¬ LastSeenOnlyOnOffline false exUser 5 9 := by
  constructor
  · intro h
    exact absurd h.1 (by decide)
  · intro h
    exact absurd h.2 (by decide)

/-- C7 as amended: for every non-anonymous user, connect-then-disconnect
makes presence subscribers observe an `online` event and then an offline
(`status = false`) event for that user, the online flag is updated on each
transition, and the save on BOTH transitions persists the fields
`['is_online', 'last_seen']` — so `last_seen` handling is identical on the
two transitions (refreshed on both when the field is auto-managed, on
neither otherwise), not offline-only. -/
theorem presence_transitions
    (autoNow : Bool) (u : CustomUser) (t1 t2 : Nat)
    (h : u.is_anonymous = false) :
    ((presenceScenario autoNow u t1 t2).1.events
        = [{ user_id := u.id, status := .str "online" }]) ∧
    ((presenceScenario autoNow u t1 t2).2.events
        = [{ user_id := u.id, status := .jsonBool false }]) ∧
    ((presenceScenario autoNow u t1 t2).1.user.map CustomUser.is_online
        = some true) ∧
    ((presenceScenario autoNow u t1 t2).2.user.map CustomUser.is_online
        = some false) ∧
    ((presenceScenario autoNow u t1 t2).1.savedFields
        = [["is_online", "last_seen"]]) ∧
    ((presenceScenario autoNow u t1 t2).2.savedFields
        = [["is_online", "last_seen"]]) ∧
    ((presenceScenario autoNow u t1 t2).2.user.map CustomUser.last_seen
        = some (if autoNow then t2 else u.last_seen)) := by
  unfold presenceScenario statusConnect statusDisconnect update_user_status
  simp [h]
  cases autoNow <;> simp

/-- Witness for C7 as amended at a concrete user and times, auto-managed
reading. -/
theorem presence_transitions_witness :
    ((presenceScenario true exUser 5 9).1.events
        = [{ user_id := exUser.id, status := .str "online" }]) ∧
    ((presenceScenario true exUser 5 9).2.events
        = [{ user_id := exUser.id, status := .jsonBool false }]) ∧
    ((presenceScenario true exUser 5 9).1.user.map CustomUser.is_online
        = some true) ∧
    ((presenceScenario true exUser 5 9).2.user.map CustomUser.is_online
        = some false) ∧
    ((presenceScenario true exUser 5 9).1.savedFields
        = [["is_online", "last_seen"]]) ∧
    ((presenceScenario true exUser 5 9).2.savedFields
        = [["is_online", "last_seen"]]) ∧
    ((presenceScenario true exUser 5 9).2.user.map CustomUser.last_seen
        = some (if true then 9 else exUser.last_seen)) :=
  presence_transitions true exUser 5 9 (by decide)

/-- Descending timestamp order on messages (`order_by('-timestamp')`). -/
def msgDescTs (a b : Message) : Prop :=
  b.timestamp ≤ a.timestamp

instance : DecidableRel msgDescTs :=
  fun a b => Nat.decLe b.timestamp a.timestamp

instance : IsTotal Message msgDescTs :=
  ⟨fun a b => Nat.le_total b.timestamp a.timestamp⟩

instance : IsTrans Message msgDescTs :=
  ⟨fun _ _ _ hab hbc => le_trans hbc hab⟩

/-- `MessageListCreateView.get_queryset` (`chat/views.py`):
`Message.objects.filter(chatroom_id=...).order_by('-timestamp')[:50]` — the
room's messages sorted by descending timestamp, truncated to the first 50.
(`ORDER BY` leaves the relative order of equal timestamps unspecified; a
stable sort is one valid realisation.) -/
def get_queryset (db : DB) (chatroom_id : Nat) : List Message :=
  (List.insertionSort msgDescTs
    (db.messages.filter (fun m => m.chatroom == chatroom_id))).take 50

/-- An example database for the listing counterexample: room 1 holds two
messages, timestamps 1 and 2. -/
def exDB3 : DB :=
  { rooms := [{ id := 1, names := "general", users := [1, 2] }],
    messages :=
      [{ id := 1, chatroom := 1, user := 1, content := "first",
         timestamp := 1, is_read := false },
       { id := 2, chatroom := 1, user := 2, content := "second",
         timestamp := 2, is_read := false }],
    nextRoomId := 2, nextMsgId := 3, now := 10 }

/-- Counterexample to C3: on a room holding messages with timestamps 1 and
2, the listing returns timestamps `[2, 1]` — descending, not the claimed
ascending caller-facing order. -/
theorem listRecent_not_ascending_cex :
    ((get_queryset exDB3 1).map Message.timestamp) = [2, 1] ∧
    ¬ List.Sorted (fun a b : Message => a.timestamp ≤ b.timestamp)
        (get_queryset exDB3 1) := by
  constructor
  · decide
  · decide

/-- The per-row update applied by `MarkMessagesAsRead.post`: match rows of
the room whose author is some user other than the requester (the FK author
always exists in the user table, so `user__in=CustomUser.objects.exclude(id=
request.user.id)` is authorship by anyone but the requester) that are still
unread. -/
def markReadPred (rid requester : Nat) (m : Message) : Bool :=
  m.chatroom == rid && m.user != requester && m.is_read == false

/-- The queryset `.update(is_read=True)` of `MarkMessagesAsRead.post`
(`chat/views.py`): set `is_read` on every matching row; also returns the
number of rows affected (the return value of `.update`, which the view
discards). -/
def markReadUpdate (db : DB) (rid requester : Nat) : DB × Nat :=
  ({ db with messages := db.messages.map (fun m =>
       if markReadPred rid requester m then { m with is_read := true }
       else m) },
   db.messages.countP (markReadPred rid requester))

/-- `MarkMessagesAsRead.post` (`chat/views.py`): runs the update and always
answers HTTP 200, with no room-existence or membership check. -/
def markMessagesAsRead_post (db : DB) (requester rid : Nat) : Nat × DB :=
  (200, (markReadUpdate db rid requester).1)

/-- `MessageListCreateView.create` (`chat/views.py`): fetch the room by id
restricted to rooms the requester belongs to (404 on `DoesNotExist`), run
the serializer (whose `content` CharField rejects input that is blank after
trimming, 400), then save the message with the requester as author (201). -/
def messageCreateView (db : DB) (requester rid : Nat) (content : String) :
    Nat × DB :=
  match db.rooms.find? (fun r => r.id == rid && r.users.contains requester)
  with
  | none => (404, db)
  | some _ =>
      if isBlank content then (400, db)
      else
        let m : Message :=
          { id := db.nextMsgId, chatroom := rid, user := requester,
            content := content, timestamp := db.now, is_read := false }
        (201, { db with messages := db.messages ++ [m],
                        nextMsgId := db.nextMsgId + 1, now := db.now + 1 })

/-- The mark-as-read row update coincides with flipping `is_read` on exactly
the rows of the room authored by someone other than the requester. -/
theorem markRead_row_eq (rid uid : Nat) (m : Message) :
    (if markReadPred rid uid m then { m with is_read := true } else m)
      = if m.chatroom = rid ∧ m.user ≠ uid then { m with is_read := true }
        else m := by
  rcases m with ⟨i, c, u, s, t, r⟩
  unfold markReadPred
  by_cases h1 : c = rid <;> by_cases h2 : u = uid <;> cases r <;>
    simp [h1, h2]

/-- After one pass of the mark-as-read update, no row still matches. -/
theorem markReadPred_after (rid uid : Nat) (m : Message) :
    markReadPred rid uid
      (if markReadPred rid uid m then { m with is_read := true } else m)
      = false := by
  by_cases h : markReadPred rid uid m
  · rw [if_pos h]
    unfold markReadPred at h ⊢
    simp
  · rw [if_neg h]
    exact eq_false_of_ne_true h

/-- The mark-as-read row update is idempotent on each row. -/
theorem markRead_row_idem (rid uid : Nat) (m : Message) :
    (if markReadPred rid uid
        (if markReadPred rid uid m then { m with is_read := true } else m)
     then { (if markReadPred rid uid m then { m with is_read := true }
             else m) with is_read := true }
     else (if markReadPred rid uid m then { m with is_read := true }
           else m))
      = (if markReadPred rid uid m then { m with is_read := true }
         else m) := by
  rw [markReadPred_after]
  simp

/-- The messages after `MarkMessagesAsRead.post`, in claim form. -/
theorem markRead_messages_eq (db : DB) (rid uid : Nat) :
    (markReadUpdate db rid uid).1.messages
      = db.messages.map (fun m =>
          if m.chatroom = rid ∧ m.user ≠ uid then { m with is_read := true }
          else m) := by
  unfold markReadUpdate
  exact List.map_congr_left (fun m _ => markRead_row_eq rid uid m)

/-- Applying the mark-as-read update twice: the second pass maps every row
to itself and counts zero affected rows. -/
theorem markRead_update_idem (db : DB) (rid uid : Nat) :
    markReadUpdate (markReadUpdate db rid uid).1 rid uid
      = ((markReadUpdate db rid uid).1, 0) := by
  unfold markReadUpdate
  simp only [List.map_map, Prod.mk.injEq, DB.mk.injEq, true_and, and_true]
  constructor
  · exact List.map_congr_left (fun m _ => markRead_row_idem rid uid m)
  · rw [List.countP_eq_zero]
    intro a ha
    rcases List.mem_map.mp ha with ⟨m, _, hm⟩
    rw [← hm]
    simp [markReadPred_after]

/-- C8: mark-as-read flips `is_read` to true exactly for the rows of the
room authored by someone other than the requester, and it is idempotent:
run twice in a row, the second run affects 0 rows and leaves the message
state unchanged. -/
theorem markRead_flips_and_idempotent (db : DB) (rid uid : Nat) :
    (markMessagesAsRead_post db uid rid).2.messages
      = db.messages.map (fun m =>
          if m.chatroom = rid ∧ m.user ≠ uid then { m with is_read := true }
          else m) ∧
    markReadUpdate (markReadUpdate db rid uid).1 rid uid
      = ((markReadUpdate db rid uid).1, 0) :=
  ⟨markRead_messages_eq db rid uid, markRead_update_idem db rid uid⟩

/-- Witness for C8 at a concrete database: one unread message by user 2 in
room 1, requester 1. -/
theorem markRead_flips_and_idempotent_witness :
    (markMessagesAsRead_post exDB3 1 1).2.messages
      = exDB3.messages.map (fun m =>
          if m.chatroom = 1 ∧ m.user ≠ 1 then { m with is_read := true }
          else m) ∧
    markReadUpdate (markReadUpdate exDB3 1 1).1 1 1
      = ((markReadUpdate exDB3 1 1).1, 0) :=
  markRead_flips_and_idempotent exDB3 1 1

/-- C3 as amended: for every room, the listing returns at most 50 messages,
all belonging to the room, in DESCENDING timestamp order (newest first, the
order `order_by('-timestamp')` hands to the serializer — it is never
re-reversed), and it keeps the most recent ones: any room message left out
is no newer than every message returned. -/
theorem listRecent_desc_take50 (db : DB) (rid : Nat) :
    List.Sorted msgDescTs (get_queryset db rid) ∧
    (get_queryset db rid).length ≤ 50 ∧
    (∀ m ∈ get_queryset db rid, m.chatroom = rid) ∧
    (∀ m ∈ db.messages, m.chatroom = rid → m ∉ get_queryset db rid →
      ∀ m2 ∈ get_queryset db rid, m.timestamp ≤ m2.timestamp) := by
  have hsort : List.Sorted msgDescTs
      (List.insertionSort msgDescTs
        (db.messages.filter (fun m => m.chatroom == rid))) :=
    List.sorted_insertionSort msgDescTs _
  refine ⟨?_, ?_, ?_, ?_⟩
  · exact List.Pairwise.sublist (List.take_sublist 50 _) hsort
  · rw [get_queryset, List.length_take]
    exact min_le_left _ _
  · intro m hm
    have hm2 : m ∈ db.messages.filter (fun m => m.chatroom == rid) :=
      (List.perm_insertionSort msgDescTs _).subset
        (List.take_subset 50 _ hm)
    have := (List.mem_filter.mp hm2).2
    simpa using this
  · intro m hm hrid hnot m2 hm2
    have hmem : m ∈ List.insertionSort msgDescTs
        (db.messages.filter (fun m => m.chatroom == rid)) :=
      ((List.perm_insertionSort msgDescTs _).symm).subset
        (List.mem_filter.mpr ⟨hm, by simpa using hrid⟩)
    rw [← List.take_append_drop 50
      (List.insertionSort msgDescTs
        (db.messages.filter (fun m => m.chatroom == rid)))] at hsort hmem
    have hdrop : m ∈ (List.insertionSort msgDescTs
        (db.messages.filter (fun m => m.chatroom == rid))).drop 50 := by
      rcases List.mem_append.mp hmem with hcase | hcase
      · exact absurd hcase hnot
      · exact hcase
    exact (List.pairwise_append.mp hsort).2.2 m2 hm2 m hdrop

/-- Witness for C3 as amended at the two-message database. -/
theorem listRecent_desc_take50_witness :
    List.Sorted msgDescTs (get_queryset exDB3 1) ∧
    (get_queryset exDB3 1).length ≤ 50 ∧
    (∀ m ∈ get_queryset exDB3 1, m.chatroom = 1) ∧
    (∀ m ∈ exDB3.messages, m.chatroom = 1 → m ∉ get_queryset exDB3 1 →
      ∀ m2 ∈ get_queryset exDB3 1, m.timestamp ≤ m2.timestamp) :=
  listRecent_desc_take50 exDB3 1

/-- Counterexample to C9: room id 7 does not exist in the example database,
yet the mark-as-read endpoint answers HTTP 200 with the database unchanged —
it silently succeeds instead of failing with `RoomNotFound`. -/
theorem markRead_missing_room_200_cex :
    (exDB3.rooms.all (fun r => r.id != 7)) = true ∧
    markMessagesAsRead_post exDB3 1 7 = (200, exDB3) := by
  constructor
  · decide
  · decide

/-- C9 as amended: with a room id that exists nowhere in the database (and
messages respecting the room foreign key), message creation does surface the
failure — HTTP 404, database unchanged — but mark-as-read does NOT: it
answers HTTP 200, affects 0 rows and leaves the database unchanged, with no
`RoomNotFound` surfaced. -/
theorem missing_room_404_vs_markRead_200
    (db : DB) (uid rid : Nat) (content : String)
    (hroom : ∀ r ∈ db.rooms, r.id ≠ rid)
    (hfk : ∀ m ∈ db.messages, ∃ r ∈ db.rooms, r.id = m.chatroom) :
    (messageCreateView db uid rid content).1 = 404 ∧
    (messageCreateView db uid rid content).2 = db ∧
    (markMessagesAsRead_post db uid rid).1 = 200 ∧
    (markReadUpdate db rid uid).2 = 0 ∧
    (markMessagesAsRead_post db uid rid).2 = db := by
  have hfind : db.rooms.find?
      (fun r => r.id == rid && r.users.contains uid) = none := by
    rw [List.find?_eq_none]
    intro r hr
    simp only [Bool.and_eq_true, beq_iff_eq, not_and]
    intro hid
    exact absurd hid (hroom r hr)
  have hpred : ∀ m ∈ db.messages, markReadPred rid uid m = false := by
    intro m hm
    rcases hfk m hm with ⟨r, hr, hrid⟩
    unfold markReadPred
    have : (m.chatroom == rid) = false := by
      simp only [beq_eq_false_iff_ne, ne_eq]
      intro hc
      exact hroom r hr (hrid.trans hc)
    simp [this]
  have hmap : db.messages.map (fun m =>
      if markReadPred rid uid m then { m with is_read := true } else m)
      = db.messages := by
    have : db.messages.map (fun m =>
        if markReadPred rid uid m then { m with is_read := true } else m)
        = db.messages.map (fun m => m) :=
      List.map_congr_left (fun m hm => by rw [hpred m hm]; simp)
    simpa using this
  refine ⟨?_, ?_, rfl, ?_, ?_⟩
  · unfold messageCreateView
    rw [hfind]
  · unfold messageCreateView
    rw [hfind]
  · unfold markReadUpdate
    simp only
    rw [List.countP_eq_zero]
    intro m hm
    simp [hpred m hm]
  · unfold markMessagesAsRead_post markReadUpdate
    simp only [hmap]
/-- Witness for C9 as amended: the two-message database (rooms: only id 1),
requested room id 7. -/
theorem missing_room_404_vs_markRead_200_witness :
    (messageCreateView exDB3 1 7 "hello").1 = 404 ∧
    (messageCreateView exDB3 1 7 "hello").2 = exDB3 ∧
    (markMessagesAsRead_post exDB3 1 7).1 = 200 ∧
    (markReadUpdate exDB3 7 1).2 = 0 ∧
    (markMessagesAsRead_post exDB3 1 7).2 = exDB3 :=
  missing_room_404_vs_markRead_200 exDB3 1 7 "hello"
    (by decide)
    (by decide)

/-- C10: the mark-as-read endpoint performs no membership check — even when
the requester belongs to no room with the requested id, the request answers
HTTP 200 and flips `is_read` on exactly the unread messages of that room
authored by others. -/
theorem markRead_no_membership_check
    (db : DB) (uid rid : Nat)
    (hnm : ∀ r ∈ db.rooms, r.id = rid → uid ∉ r.users) :
    (markMessagesAsRead_post db uid rid).1 = 200 ∧
    (markMessagesAsRead_post db uid rid).2.messages
      = db.messages.map (fun m =>
          if m.chatroom = rid ∧ m.user ≠ uid then { m with is_read := true }
          else m) :=
  ⟨rfl, markRead_messages_eq db rid uid⟩

/-- Witness for C10: requester 3 is not a member of room 1, yet the unread
messages of room 1 get marked read with HTTP 200. -/
theorem markRead_no_membership_check_witness :
    (markMessagesAsRead_post exDB3 3 1).1 = 200 ∧
    (markMessagesAsRead_post exDB3 3 1).2.messages
      = exDB3.messages.map (fun m =>
          if m.chatroom = 1 ∧ m.user ≠ 3 then { m with is_read := true }
          else m) :=
  markRead_no_membership_check exDB3 3 1 (by decide)
